import Mathlib

/-!
Verification of the DynamoDB-to-Elasticsearch stream processor.

Shallow embedding of `src/DynamoToES/index.py` (bfansports/dynamodb-to-elasticsearch):
the typed-value decoder (`unmarshalValue` / `unmarshalJson` / `int_or_float`),
reserved-field sanitization, document-identity derivation (`generateId`),
source-table extraction (`getTable`), and the per-record dispatch loop
(`lambda_handler` with `insert_document` / `modify_document` / `remove_document`),
together with theorems settling the specification's claims.

Modelling conventions:
* Python exceptions are `Option` (`none` = an exception was raised).
* Python `None` is the distinguished native value `NativeValue.null`
  (distinct from a raised exception).
* Python `float` values are represented by the literal text that parsed
  successfully (no claim depends on IEEE arithmetic or float formatting).
* The two search clients (Elasticsearch / OpenSearch) are the two values of
  `Backend`; a backend call is recorded in a trace, and an environment
  `BackendEnv` decides whether each call raises and what `indices.exists`
  returns.  The differing call shapes (`doc_type=` vs `headers=`) carry no
  information relevant to the claims and are elided from `CallOp`.
* Python builtins `int(s)` / `float(s)` are modelled lexically over ASCII
  (optional surrounding whitespace, optional sign, digits; float also allows
  a fractional part, an exponent, and inf/infinity/nan).  Underscore digit
  separators and non-ASCII digits are not modelled.
-/

/-- The DynamoDB wire format: a single-key mapping whose key is a type tag.
`other` is a node whose single key is none of the nine known tags (its payload
is never inspected by the decoder, so only the tag is carried). -/
inductive AttrValue where
  | NULL : AttrValue
  | S : String → AttrValue
  | BOOL : Bool → AttrValue
  | N : String → AttrValue
  | M : List (String × AttrValue) → AttrValue
  | BS : List AttrValue → AttrValue
  | L : List AttrValue → AttrValue
  | SS : List String → AttrValue
  | NS : List String → AttrValue
  | other : String → AttrValue
deriving Repr

/-- A decoded native (Python) value. `null` is Python `None`; `float` carries
the literal text whose float-parse succeeded. -/
inductive NativeValue where
  | null : NativeValue
  | str : String → NativeValue
  | bool : Bool → NativeValue
  | int : Int → NativeValue
  | float : String → NativeValue
  | map : List (String × NativeValue) → NativeValue
  | list : List NativeValue → NativeValue
deriving Repr

/-- Definition `reserved_fields` from index.py lines 13-26. -/
def reserved_fields : List String :=
  ["uid", "_id", "_type", "_source", "_all", "_parent", "_fieldnames",
   "_routing", "_index", "_size", "_timestamp", "_ttl"]

/-- Python `s.replace("_", "__", 1)` on the character list: the first
occurrence of `'_'` (anywhere in the string) is replaced by `"__"`. -/
def replaceFirstUnderscoreAux : List Char → List Char
  | [] => []
  | c :: cs => if c = '_' then '_' :: '_' :: cs else c :: replaceFirstUnderscoreAux cs

/-- Python `key1.replace("_", "__", 1)` (index.py line 263). -/
def replaceFirstUnderscore (s : String) : String :=
  String.mk (replaceFirstUnderscoreAux s.data)

/-- The field-name sanitization performed inline in the `M` branch of
`unmarshalValue` (index.py lines 262-263): a reserved field name has its first
underscore doubled; any other name passes through unchanged. -/
def sanitizeField (k : String) : String :=
  if k ∈ reserved_fields then replaceFirstUnderscore k else k

/-- Strip ASCII whitespace from both ends (Python `int`/`float` accept
surrounding whitespace). -/
def trimWs (cs : List Char) : List Char :=
  ((cs.dropWhile Char.isWhitespace).reverse.dropWhile Char.isWhitespace).reverse

/-- Digit characters to the natural number they denote (most significant
first). -/
def digitsToNat (cs : List Char) : Nat :=
  cs.foldl (fun a c => a * 10 + (c.toNat - 48)) 0

/-- An unsigned decimal integer body: nonempty, all ASCII digits. -/
def intBody? (cs : List Char) : Option Nat :=
  if cs ≠ [] ∧ cs.all Char.isDigit then some (digitsToNat cs) else none

/-- Model of Python `int(s)`: optional whitespace, optional sign, nonempty
digit run.  `none` models a raised `ValueError`. -/
def pyInt? (s : String) : Option Int :=
  match trimWs s.data with
  | '+' :: rest => (intBody? rest).map Int.ofNat
  | '-' :: rest => (intBody? rest).map (fun n => -(n : Int))
  | rest => (intBody? rest).map Int.ofNat

/-- A float mantissa: `digits`, `digits.`, `digits.digits`, or `.digits`. -/
def isMantissa (cs : List Char) : Bool :=
  let intPart := cs.takeWhile Char.isDigit
  let rest := cs.drop intPart.length
  match rest with
  | [] => !intPart.isEmpty
  | '.' :: frac => frac.all Char.isDigit && (!intPart.isEmpty || !frac.isEmpty)
  | _ => false

/-- A float exponent: `e`/`E`, optional sign, nonempty digit run. -/
def isExponent (cs : List Char) : Bool :=
  match cs with
  | 'e' :: rest | 'E' :: rest =>
    match rest with
    | '+' :: ds => !ds.isEmpty && ds.all Char.isDigit
    | '-' :: ds => !ds.isEmpty && ds.all Char.isDigit
    | ds => !ds.isEmpty && ds.all Char.isDigit
  | _ => false

/-- Split the float body at the first `e`/`E` and validate both halves. -/
def isFloatBody (cs : List Char) : Bool :=
  let mant := cs.takeWhile (fun c => c ≠ 'e' ∧ c ≠ 'E')
  let rest := cs.drop mant.length
  isMantissa mant && (rest.isEmpty || isExponent rest)

/-- Model of Python `float(s)`: on success returns the trimmed literal text
(the model's representation of the float value); `none` models a raised
`ValueError`. -/
def pyFloat? (s : String) : Option String :=
  let cs := trimWs s.data
  let body := match cs with
    | '+' :: r => r
    | '-' :: r => r
    | r => r
  let low := String.mk (body.map Char.toLower)
  if isFloatBody body || low = "inf" || low = "infinity" || low = "nan" then
    some (String.mk cs)
  else
    none

/-- Function `int_or_float` (index.py lines 287-291): try `int(s)`, catch `ValueError`
and fall back to `float(s)`; a `ValueError` from `float` propagates (`none`). -/
def int_or_float (s : String) : Option NativeValue :=
  match pyInt? s with
  | some n => some (.int n)
  | none => (pyFloat? s).map .float

/-- Python dict assignment `d[k] = v`: overwrite in place if `k` present,
else append (insertion order preserved). -/
def dictInsert (d : List (String × NativeValue)) (k : String) (v : NativeValue) :
    List (String × NativeValue) :=
  if d.any (fun p => p.1 = k) then
    d.map (fun p => if p.1 = k then (k, v) else p)
  else
    d ++ [(k, v)]

/-- The `NS` branch loop with `forceNum` true (index.py lines 276-283). -/
def unmarshalNumList : List String → Option (List NativeValue)
  | [] => some []
  | s :: rest =>
    match int_or_float s with
    | none => none
    | some nv => (unmarshalNumList rest).map (nv :: ·)

mutual

/-- Function `unmarshalValue` (index.py lines 249-283).  The nine known tags are
decoded as written; a node whose tag is none of the nine falls through every
`if` and the Python function returns `None` — modelled by `some .null`.
A raised exception anywhere is `none`. -/
def unmarshalValue : AttrValue → Bool → Option NativeValue
  | .NULL, _ => some .null
  | .S v, _ => some (.str v)
  | .BOOL v, _ => some (.bool v)
  | .N v, forceNum => if forceNum then int_or_float v else some (.str v)
  | .M v, _ => (unmarshalMap v []).map .map
  | .BS v, _ => (unmarshalList v).map .list
  | .L v, _ => (unmarshalList v).map .list
  | .SS v, _ => some (.list (v.map .str))
  | .NS v, forceNum =>
    if forceNum then (unmarshalNumList v).map .list
    else some (.list (v.map .str))
  | .other _, _ => some .null

/-- The `M` branch loop (index.py lines 260-265): sanitize each field name,
decode each value with `forceNum = True`, assign into the dict. -/
def unmarshalMap : List (String × AttrValue) → List (String × NativeValue) →
    Option (List (String × NativeValue))
  | [], acc => some acc
  | (k, v) :: rest, acc =>
    match unmarshalValue v true with
    | none => none
    | some nv => unmarshalMap rest (dictInsert acc (sanitizeField k) nv)

/-- The `BS`/`L` branch loop (index.py lines 266-270): each element decoded
with the default `forceNum = False`. -/
def unmarshalList : List AttrValue → Option (List NativeValue)
  | [] => some []
  | v :: rest =>
    match unmarshalValue v false with
    | none => none
    | some nv => (unmarshalList rest).map (nv :: ·)

end

/-- Function `unmarshalJson` (index.py lines 242-245): wrap the mapping in an `M` tag
and decode with `forceNum = True`; the result is always a dict, given here
directly as the association list. -/
def unmarshalJson (node : List (String × AttrValue)) :
    Option (List (String × NativeValue)) :=
  unmarshalMap node []

mutual

/-- Python `repr` of a decoded value (used by `str` for containers; string
escaping inside `repr` is not modelled — keys and scalar strings are rendered
between plain quotes). -/
def pyRepr : NativeValue → String
  | .null => "None"
  | .bool true => "True"
  | .bool false => "False"
  | .int n => toString n
  | .float lit => lit
  | .str s => "'" ++ s ++ "'"
  | .map l => "\x7b" ++ pyReprMapItems l ++ "\x7d"
  | .list l => "[" ++ pyReprListItems l ++ "]"

def pyReprMapItems : List (String × NativeValue) → String
  | [] => ""
  | [(k, v)] => "'" ++ k ++ "': " ++ pyRepr v
  | (k, v) :: rest => "'" ++ k ++ "': " ++ pyRepr v ++ ", " ++ pyReprMapItems rest

def pyReprListItems : List NativeValue → String
  | [] => ""
  | [v] => pyRepr v
  | v :: rest => pyRepr v ++ ", " ++ pyReprListItems rest

end

/-- Python `str(x)`: the string itself for a `str`, `repr`-like rendering
otherwise (for `int`, `bool`, `None` and containers `str` and `repr`
coincide up to the unmodelled escaping). -/
def pyStr : NativeValue → String
  | .str s => s
  | v => pyRepr v

/-- One entry of `lib/table_mapping.json`: `{PrimaryKey: ..., SortKey?: ...}`. -/
structure MappingEntry where
  PrimaryKey : String
  SortKey : Option String
deriving Repr

/-- The optional `table_mapping` loaded at process start (index.py lines
36-40), keyed by table name.  Passed explicitly instead of read from a
global. -/
abbrev TableMapping := List (String × MappingEntry)

/-- The `dynamodb` member of a stream record: `Keys` always present,
`NewImage` present for INSERT/MODIFY only (`none` models a missing key, whose
access raises `KeyError`). -/
structure StreamData where
  Keys : List (String × AttrValue)
  NewImage : Option (List (String × AttrValue))
deriving Repr

/-- One DynamoDB stream record as seen by the handler. -/
structure StreamRecord where
  eventName : String
  eventSourceARN : String
  dynamodb : StreamData
deriving Repr

/-- A character allowed in the captured table-name group `[0-9a-zA-Z_-]`. -/
def isNameChar (c : Char) : Bool :=
  c.isDigit || c.isLower || c.isUpper || c = '_' || c = '-'

/-- Match `table/` + `[0-9a-zA-Z_-]+` + `/` + `.+` at the head of `cs`,
returning the captured name.  `.` in the regex excludes newline, so the
final `.+` demands one non-newline character after the slash. -/
def matchTableSeg (cs : List Char) : Option String :=
  if cs.take 6 = "table/".data then
    let rest := cs.drop 6
    let name := rest.takeWhile isNameChar
    let rest2 := rest.drop name.length
    match rest2 with
    | '/' :: c :: _ => if !name.isEmpty && c ≠ '\n' then some (String.mk name) else none
    | _ => none
  else none

/-- The lazy `.*?:` before `table/`: scan for the earliest `:` whose tail
matches the table segment; `.` cannot cross a newline, so a newline before a
successful `:` fails the whole alternative. -/
def searchSecondColon : List Char → Option String
  | [] => none
  | c :: cs =>
    if c = ':' then
      match matchTableSeg cs with
      | some n => some n
      | none => if c = '\n' then none else searchSecondColon cs
    else if c = '\n' then none
    else searchSecondColon cs

/-- The first lazy `.*?:` of the pattern: earliest `:` from which the rest of
the pattern can match. -/
def searchFirstColon : List Char → Option String
  | [] => none
  | c :: cs =>
    if c = ':' then
      match searchSecondColon cs with
      | some n => some n
      | none => searchFirstColon cs
    else if c = '\n' then none
    else searchFirstColon cs

/-- Function `getTable` (index.py lines 205-210): prefix-match the record's
`eventSourceARN` against `arn:aws:dynamodb:.*?:.*?:table/([0-9a-zA-Z_-]+)/.+`
and lower-case the captured group; no match raises (`none`). -/
def getTable (arn : String) : Option String :=
  if arn.data.take 17 = "arn:aws:dynamodb:".data then
    (searchFirstColon (arn.data.drop 17)).map
      (fun n => String.mk (n.data.map Char.toLower))
  else none

/-- The positional fallback loop of `generateId` (index.py lines 230-238):
`newId = ""`, then for each key value append `"|"` (when not first) and
`str(value)`. -/
def fallbackId (keys : List (String × NativeValue)) : String :=
  (keys.foldl
    (fun (acc : String × Nat) kv =>
      ((if acc.2 > 0 then acc.1 ++ "|" else acc.1) ++ pyStr kv.2, acc.2 + 1))
    ("", 0)).1

/-- The body of `generateId` after the `Keys` mapping has been decoded
(index.py lines 218-238).  Python `keys[field]` on a missing field raises
`KeyError` (`none`). -/
def generateIdFromKeys (tm : Option TableMapping) (tableName : String)
    (keys : List (String × NativeValue)) : Option String :=
  match tm with
  | some m =>
    match List.lookup tableName m with
    | some entry =>
      match entry.SortKey with
      | some sk =>
        match List.lookup entry.PrimaryKey keys, List.lookup sk keys with
        | some pv, some sv => some (pyStr pv ++ "|" ++ pyStr sv)
        | _, _ => none
      | none =>
        match List.lookup entry.PrimaryKey keys with
        | some pv => some (pyStr pv)
        | none => none
    | none => some (fallbackId keys)
  | none => some (fallbackId keys)

/-- Function `generateId` (index.py lines 216-238): decode `record["dynamodb"]["Keys"]`
and derive the document id, using the table mapping when it has an entry for
`tableName`. -/
def generateId (tm : Option TableMapping) (r : StreamRecord)
    (tableName : String) : Option String :=
  match unmarshalJson r.dynamodb.Keys with
  | none => none
  | some keys => generateIdFromKeys tm tableName keys

/-- The two configured client variants: `type(search_client) is Elasticsearch`
distinguishes them in index.py. -/
inductive Backend where
  | ES : Backend
  | OS : Backend
deriving Repr, DecidableEq

/-- One call issued to a search client.  `indexWrite` carries the index, the
document id and the decoded document body (`json.dumps` serialization and the
`doc_type`/`headers` call-shape differences are elided). -/
inductive CallOp where
  | indicesExists : String → CallOp
  | indicesCreate : String → CallOp
  | indexWrite : String → String → List (String × NativeValue) → CallOp
  | deleteDoc : String → String → CallOp
deriving Repr

/-- A recorded backend call: which client it went to and what it was. -/
structure Call where
  backend : Backend
  op : CallOp
deriving Repr

/-- The behaviour of the external search clients: `fails` says whether a
given call raises, `indexExistsResult` is the boolean returned by a
non-failing `indices.exists` call. -/
structure BackendEnv where
  fails : Backend → CallOp → Bool
  indexExistsResult : Backend → String → Bool

/-- Which clients the handler constructed (`env.ES_ENDPOINT` /
`env.OS_ENDPOINT` non-null, index.py lines 58-76). -/
structure Config where
  es : Bool
  os : Bool
deriving Repr

/-- Issue one call: it always appears in the trace, and the step fails when
the environment says the call raises. -/
def issueCall (env : BackendEnv) (b : Backend) (op : CallOp) :
    List Call × Bool :=
  ([⟨b, op⟩], !env.fails b op)

/-- Function `insert_document` (index.py lines 167-201) against one client.  Order as
written: `getTable`, decode `NewImage`, `generateId`; then for the
Elasticsearch variant `indices.exists` / conditional `indices.create` /
`index`, for the OpenSearch variant just `index`.  The returned list is the
trace of issued calls; the boolean is false when an exception was raised. -/
def insert_document (env : BackendEnv) (b : Backend) (tm : Option TableMapping)
    (r : StreamRecord) : List Call × Bool :=
  match getTable r.eventSourceARN with
  | none => ([], false)
  | some table =>
    match r.dynamodb.NewImage with
    | none => ([], false)
    | some img =>
      match unmarshalJson img with
      | none => ([], false)
      | some doc =>
        match generateId tm r table with
        | none => ([], false)
        | some newId =>
          match b with
          | .ES =>
            let c1 : Call := ⟨.ES, .indicesExists table⟩
            if env.fails .ES (.indicesExists table) then ([c1], false)
            else if env.indexExistsResult .ES table = false then
              let c2 : Call := ⟨.ES, .indicesCreate table⟩
              if env.fails .ES (.indicesCreate table) then ([c1, c2], false)
              else
                ([c1, c2, ⟨.ES, .indexWrite table newId doc⟩],
                 !env.fails .ES (.indexWrite table newId doc))
            else
              ([c1, ⟨.ES, .indexWrite table newId doc⟩],
               !env.fails .ES (.indexWrite table newId doc))
          | .OS =>
            ([⟨.OS, .indexWrite table newId doc⟩],
             !env.fails .OS (.indexWrite table newId doc))

/-- Function `modify_document` (index.py lines 115-143) against one client.  Order as
written: `getTable`, `generateId`, decode `NewImage`, then a single `index`
call — no index-existence check for either variant. -/
def modify_document (env : BackendEnv) (b : Backend) (tm : Option TableMapping)
    (r : StreamRecord) : List Call × Bool :=
  match getTable r.eventSourceARN with
  | none => ([], false)
  | some table =>
    match generateId tm r table with
    | none => ([], false)
    | some docId =>
      match r.dynamodb.NewImage with
      | none => ([], false)
      | some img =>
        match unmarshalJson img with
        | none => ([], false)
        | some doc => issueCall env b (.indexWrite table docId doc)

/-- Function `remove_document` (index.py lines 147-163) against one client:
`getTable`, `generateId`, then a single `delete` call. -/
def remove_document (env : BackendEnv) (b : Backend) (tm : Option TableMapping)
    (r : StreamRecord) : List Call × Bool :=
  match getTable r.eventSourceARN with
  | none => ([], false)
  | some table =>
    match generateId tm r table with
    | none => ([], false)
    | some docId => issueCall env b (.deleteDoc table docId)

/-- The operation the event kind selects for one client (the `elif` chain of
index.py lines 90-104); an unrecognized `eventName` selects nothing. -/
def backendOp (env : BackendEnv) (b : Backend) (tm : Option TableMapping)
    (r : StreamRecord) : List Call × Bool :=
  if r.eventName = "INSERT" then insert_document env b tm r
  else if r.eventName = "REMOVE" then remove_document env b tm r
  else if r.eventName = "MODIFY" then modify_document env b tm r
  else ([], true)

/-- Sequence two fallible traced steps: the second runs only when the first
did not raise (Python exceptions abort the rest of the `try` block). -/
def andThen (first : List Call × Bool) (second : Unit → List Call × Bool) :
    List Call × Bool :=
  if first.2 then (first.1 ++ (second ()).1, (second ()).2) else first

/-- The body of the per-record `try` block (index.py lines 90-104): the
selected operation runs against the Elasticsearch client when configured,
then against the OpenSearch client when configured.  The boolean is false
when the block raised (and the `except` branch runs). -/
def processRecord (env : BackendEnv) (cfg : Config) (tm : Option TableMapping)
    (r : StreamRecord) : List Call × Bool :=
  andThen (if cfg.es then backendOp env .ES tm r else ([], true))
    (fun _ => if cfg.os then backendOp env .OS tm r else ([], true))

/-- The record loop of `lambda_handler` (index.py lines 87-111): every record
is processed inside `try/except Exception: ... continue`, so a failure is
counted (the `except` branch logs it) and the loop continues.  Returns the
full trace of backend calls and the number of records whose processing
raised. -/
def lambda_handler (env : BackendEnv) (cfg : Config) (tm : Option TableMapping)
    (records : List StreamRecord) : List Call × Nat :=
  records.foldl
    (fun acc r =>
      let res := processRecord env cfg tm r
      (acc.1 ++ res.1, acc.2 + (if res.2 then 0 else 1)))
    ([], 0)

/-! ## Helper definitions and lemmas -/

/-- Classify administrative index calls (existence check / creation), as
opposed to document writes and deletes. -/
def isAdminOp : CallOp → Bool
  | .indicesExists _ => true
  | .indicesCreate _ => true
  | .indexWrite _ _ _ => false
  | .deleteDoc _ _ => false

/-- The specification's description of the positional identity: the
stringified key values joined with `"|"`. -/
def joinBar : List String → String
  | [] => ""
  | [s] => s
  | s :: rest => s ++ "|" ++ joinBar rest

/-- Each element prefixed by `"|"` and concatenated (tail of a `joinBar`). -/
def prefixJoin : List String → String
  | [] => ""
  | s :: rest => "|" ++ s ++ prefixJoin rest

theorem joinBar_cons (x : String) (r : List String) :
    joinBar (x :: r) = x ++ prefixJoin r := by
  induction r generalizing x with
  | nil => simp [joinBar, prefixJoin]
  | cons y r ih =>
    simp only [joinBar, prefixJoin, ih y]
    simp [String.append_assoc]

theorem fallbackId_fold (ks : List (String × NativeValue)) :
    ∀ (s : String) (n : Nat), 0 < n →
      (ks.foldl
        (fun (acc : String × Nat) kv =>
          ((if acc.2 > 0 then acc.1 ++ "|" else acc.1) ++ pyStr kv.2, acc.2 + 1))
        (s, n)).1
      = s ++ prefixJoin (ks.map (fun kv => pyStr kv.2)) := by
  induction ks with
  | nil => intro s n _; simp [prefixJoin]
  | cons kv ks ih =>
    intro s n h
    simp only [List.foldl_cons, List.map_cons, prefixJoin]
    rw [if_pos h, ih _ (n + 1) (Nat.succ_pos n)]
    simp [String.append_assoc]

/-- The positional fallback of `generateId` computes exactly the
specification's joined-with-`"|"` string. -/
theorem fallbackId_eq_joinBar (keys : List (String × NativeValue)) :
    fallbackId keys = joinBar (keys.map (fun kv => pyStr kv.2)) := by
  cases keys with
  | nil => rfl
  | cons kv ks =>
    simp only [fallbackId, List.foldl_cons]
    rw [fallbackId_fold ks _ 1 Nat.one_pos, List.map_cons, joinBar_cons]
    simp

/-- Shifting the accumulator of the `lambda_handler` fold. -/
theorem lambda_handler_shift (env : BackendEnv) (cfg : Config)
    (tm : Option TableMapping) :
    ∀ (rs : List StreamRecord) (t : List Call) (n : Nat),
      rs.foldl
        (fun acc r =>
          let res := processRecord env cfg tm r
          (acc.1 ++ res.1, acc.2 + (if res.2 then 0 else 1)))
        (t, n)
      = (t ++ (lambda_handler env cfg tm rs).1,
         n + (lambda_handler env cfg tm rs).2) := by
  intro rs
  induction rs with
  | nil => intro t n; simp [lambda_handler]
  | cons r rs ih =>
    intro t n
    simp only [lambda_handler, List.foldl_cons]
    rw [ih, ih]
    simp [List.append_assoc, Nat.add_assoc]

/-- The handler's trace and failure count are additive over batch
concatenation. -/
theorem lambda_handler_append (env : BackendEnv) (cfg : Config)
    (tm : Option TableMapping) (rs1 rs2 : List StreamRecord) :
    lambda_handler env cfg tm (rs1 ++ rs2)
      = ((lambda_handler env cfg tm rs1).1 ++ (lambda_handler env cfg tm rs2).1,
         (lambda_handler env cfg tm rs1).2 + (lambda_handler env cfg tm rs2).2) := by
  show List.foldl _ ([], 0) (rs1 ++ rs2) = _
  rw [List.foldl_append]
  rw [show (List.foldl
      (fun acc r =>
        let res := processRecord env cfg tm r
        (acc.1 ++ res.1, acc.2 + (if res.2 then 0 else 1)))
      ([], 0) rs1)
    = ((lambda_handler env cfg tm rs1).1, (lambda_handler env cfg tm rs1).2) from rfl]
  exact lambda_handler_shift env cfg tm rs2 _ _

/-- Every call `insert_document` issues goes to the client it was given. -/
theorem insert_document_backend (env : BackendEnv) (b : Backend)
    (tm : Option TableMapping) (r : StreamRecord) :
    ∀ c ∈ (insert_document env b tm r).1, c.backend = b := by
  intro c hc
  simp only [insert_document] at hc
  repeat' split at hc
  all_goals (try simp_all [issueCall])
  all_goals casesm* _ ∨ _
  all_goals subst_vars
  all_goals rfl

/-- Every call `modify_document` issues goes to the client it was given. -/
theorem modify_document_backend (env : BackendEnv) (b : Backend)
    (tm : Option TableMapping) (r : StreamRecord) :
    ∀ c ∈ (modify_document env b tm r).1, c.backend = b := by
  intro c hc
  simp only [modify_document] at hc
  repeat' split at hc
  all_goals simp_all [issueCall]

/-- Every call `remove_document` issues goes to the client it was given. -/
theorem remove_document_backend (env : BackendEnv) (b : Backend)
    (tm : Option TableMapping) (r : StreamRecord) :
    ∀ c ∈ (remove_document env b tm r).1, c.backend = b := by
  intro c hc
  simp only [remove_document] at hc
  repeat' split at hc
  all_goals simp_all [issueCall]

/-- Every call in a per-backend operation's trace goes to that backend. -/
theorem backendOp_backend (env : BackendEnv) (b : Backend)
    (tm : Option TableMapping) (r : StreamRecord) :
    ∀ c ∈ (backendOp env b tm r).1, c.backend = b := by
  intro c hc
  simp only [backendOp] at hc
  split at hc
  · exact insert_document_backend env b tm r c hc
  · split at hc
    · exact remove_document_backend env b tm r c hc
    · split at hc
      · exact modify_document_backend env b tm r c hc
      · simp at hc

/-- Neither `modify_document` trace contains an administrative index call. -/
theorem modify_document_no_admin (env : BackendEnv) (b : Backend)
    (tm : Option TableMapping) (r : StreamRecord) :
    ∀ c ∈ (modify_document env b tm r).1, isAdminOp c.op = false := by
  intro c hc
  simp only [modify_document] at hc
  repeat' split at hc
  all_goals simp_all [issueCall, isAdminOp]

/-! ## Concrete fixtures used by counterexamples and witnesses -/

/-- An INSERT record for table `Users` with key and image `{id: {S: "42"}}`. -/
def recInsertUsers : StreamRecord :=
  ⟨"INSERT", "arn:aws:dynamodb:us-east-1:123456789012:table/Users/stream/2020",
   ⟨[("id", .S "42")], some [("id", .S "42")]⟩⟩

/-- The same event as a MODIFY. -/
def recModifyUsers : StreamRecord :=
  ⟨"MODIFY", "arn:aws:dynamodb:us-east-1:123456789012:table/Users/stream/2020",
   ⟨[("id", .S "42")], some [("id", .S "42")]⟩⟩

/-- The same key as a REMOVE (no NewImage). -/
def recRemoveUsers : StreamRecord :=
  ⟨"REMOVE", "arn:aws:dynamodb:us-east-1:123456789012:table/Users/stream/2020",
   ⟨[("id", .S "42")], none⟩⟩

/-- An INSERT whose image holds a Number payload that parses as neither
integer nor float — decoding it raises. -/
def recBadNumber : StreamRecord :=
  ⟨"INSERT", "arn:aws:dynamodb:us-east-1:123456789012:table/Users/stream/2020",
   ⟨[("id", .S "1")], some [("n", .N "abc")]⟩⟩

/-- A record whose eventName is none of INSERT/REMOVE/MODIFY. -/
def recUnknownEvent : StreamRecord :=
  ⟨"UPDATE", "arn:aws:dynamodb:us-east-1:123456789012:table/Users/stream/2020",
   ⟨[("id", .S "42")], some [("id", .S "42")]⟩⟩

/-- An environment where every call to the Elasticsearch client raises and
the OpenSearch client works. -/
def envEsFails : BackendEnv :=
  ⟨fun b _ => match b with | .ES => true | .OS => false, fun _ _ => true⟩

/-- An environment where no call raises and every index exists. -/
def envNoFail : BackendEnv := ⟨fun _ _ => false, fun _ _ => true⟩

/-- An environment where no call raises and no index exists. -/
def envNoIndex : BackendEnv := ⟨fun _ _ => false, fun _ _ => false⟩

/-- Both clients configured. -/
def cfgBoth : Config := ⟨true, true⟩

/-! ## Claim theorems -/

/-- C2, counterexample: decoding a node whose tag is outside the nine known
tags (here `"B"`, the binary tag, which the decoder does not handle) does not
fail — it silently produces Python `None`, exactly the null result the claim
rules out. -/
theorem unknown_tag_returns_null_cex :
    unmarshalValue (.other "B") true = some NativeValue.null := rfl

/-- C2, amended: for every tag outside the nine known tags and either value
of `forceNum`, `unmarshalValue` falls through every branch and returns
Python `None` (`NativeValue.null`) without raising — indistinguishable from
a decoded `Null` value. -/
theorem unknown_tag_returns_null (tag : String) (b : Bool) :
    unmarshalValue (.other tag) b = some NativeValue.null := rfl

/-- C4, counterexample: `"uid"` is in the reserved set but contains no
underscore, so `replace("_", "__", 1)` leaves it unchanged and Map decoding
emits the reserved name itself, contradicting the claim that every reserved
name is rewritten to something different. -/
theorem uid_not_sanitized_cex :
    "uid" ∈ reserved_fields ∧ sanitizeField "uid" = "uid" ∧
    unmarshalValue (.M [("uid", .S "x")]) true =
      some (.map [("uid", .str "x")]) :=
  ⟨by decide, rfl, rfl⟩

/-- C4, amended: a non-reserved name passes through Map-decoding
sanitization unchanged; a reserved name other than `"uid"` (every such name
starts with an underscore) has its first underscore doubled, which changes
it; `"uid"` alone is reserved yet left unchanged because it contains no
underscore to double. -/
theorem sanitize_reserved_spec (k : String) :
    (k ∉ reserved_fields → sanitizeField k = k) ∧
    (k ∈ reserved_fields → k ≠ "uid" →
      sanitizeField k = "_" ++ k ∧ sanitizeField k ≠ k) ∧
    sanitizeField "uid" = "uid" ∧
    (∀ v b, unmarshalValue (.M [(k, .S v)]) b =
      some (.map [(sanitizeField k, .str v)])) := by
  refine ⟨fun h => ?_, fun h hne => ?_, rfl, fun v b => ?_⟩
  · simp [sanitizeField, h]
  · fin_cases h <;> first
      | exact absurd rfl hne
      | exact ⟨rfl, by decide⟩
  · simp [unmarshalValue, unmarshalMap, dictInsert]

/-- C4, witness: the amended statement evaluated at the reserved name
`"_type"` and the non-reserved name `"name"`. -/
theorem sanitize_reserved_spec_witness :
    sanitizeField "_type" = "_" ++ "_type" ∧ sanitizeField "name" = "name" :=
  ⟨((sanitize_reserved_spec "_type").2.1 (by decide) (by decide)).1,
   (sanitize_reserved_spec "name").1 (by decide)⟩

/-- C7: decoding a Map ignores the caller's `forceNum` flag entirely; each
entry is decoded with `forceNum = true` (shown for a one-entry map, after
name sanitization), so a nested Number decodes to a native number even under
an outer `forceNumeric=false` call. -/
theorem map_decode_forces_numeric :
    (∀ (m : List (String × AttrValue)) (b1 b2 : Bool),
      unmarshalValue (.M m) b1 = unmarshalValue (.M m) b2) ∧
    (∀ (k : String) (v : AttrValue) (b : Bool),
      unmarshalValue (.M [(k, v)]) b =
        (unmarshalValue v true).map
          (fun nv => .map [(sanitizeField k, nv)])) ∧
    unmarshalValue (.M [("a", .N "3")]) false =
      some (.map [("a", .int 3)]) := by
  refine ⟨fun m b1 b2 => rfl, fun k v b => ?_, rfl⟩
  cases h : unmarshalValue v true with
  | none => simp [unmarshalValue, unmarshalMap, h]
  | some nv => simp [unmarshalValue, unmarshalMap, h, dictInsert]

/-- C8: a Number payload decoded with `forceNumeric=false` is returned as
the raw string; with `forceNumeric=true` an integer parse is attempted
first, a float parse second, and failure of both raises (fatal for the
record) — never a coercion to zero or a string passthrough. -/
theorem number_decode_spec (s : String) :
    unmarshalValue (.N s) false = some (.str s) ∧
    (∀ n, pyInt? s = some n → unmarshalValue (.N s) true = some (.int n)) ∧
    (∀ f, pyInt? s = none → pyFloat? s = some f →
      unmarshalValue (.N s) true = some (.float f)) ∧
    (pyInt? s = none → pyFloat? s = none → unmarshalValue (.N s) true = none) := by
  refine ⟨rfl, fun n hn => ?_, fun f hi hf => ?_, fun hi hf => ?_⟩ <;>
    simp [unmarshalValue, int_or_float, *]

/-- C8, witness: the Number rule evaluated at `"7"` (integer), `"4.5"`
(float after integer-parse failure) and `"abc"` (fatal decode error). -/
theorem number_decode_spec_witness :
    unmarshalValue (.N "7") true = some (.int 7) ∧
    unmarshalValue (.N "4.5") true = some (.float "4.5") ∧
    unmarshalValue (.N "abc") true = none ∧
    unmarshalValue (.N "4.5") false = some (.str "4.5") :=
  ⟨(number_decode_spec "7").2.1 7 rfl,
   (number_decode_spec "4.5").2.2.1 "4.5" rfl rfl,
   (number_decode_spec "abc").2.2.2 rfl rfl,
   (number_decode_spec "4.5").1⟩

/-- C9: document-identity derivation reads only the record's decoded `Keys`
(and the mapping): two records with the same `Keys` get the same id for
every choice of `NewImage`, eventName and source ARN. -/
theorem generateId_pure (tm : Option TableMapping) (r1 r2 : StreamRecord)
    (table : String) (h : r1.dynamodb.Keys = r2.dynamodb.Keys) :
    generateId tm r1 table = generateId tm r2 table := by
  simp only [generateId, h]

/-- C9, witness: identical keys, different `NewImage` contents, same id. -/
theorem generateId_pure_witness :
    generateId none recInsertUsers "users"
      = generateId none
          ⟨"MODIFY",
           "arn:aws:dynamodb:eu-west-1:000000000000:table/Other/stream/1",
           ⟨[("id", .S "42")], some [("other", .S "zzz")]⟩⟩ "users" :=
  generateId_pure none recInsertUsers
    ⟨"MODIFY", "arn:aws:dynamodb:eu-west-1:000000000000:table/Other/stream/1",
     ⟨[("id", .S "42")], some [("other", .S "zzz")]⟩⟩ "users" rfl

/-- C6: the derived identity follows the mapping when an entry exists for
the source (primary, or primary`|`sort, stringified), falls back to the key
values joined with `"|"` in insertion order otherwise, and raises
(`KeyError`) when the mapping references a key field absent from the decoded
key attributes. -/
theorem generateIdFromKeys_spec (tm : TableMapping) (table : String)
    (keys : List (String × NativeValue)) :
    (∀ entry, List.lookup table tm = some entry →
      (∀ sk, entry.SortKey = some sk →
        (∀ pv sv, List.lookup entry.PrimaryKey keys = some pv →
          List.lookup sk keys = some sv →
          generateIdFromKeys (some tm) table keys =
            some (pyStr pv ++ "|" ++ pyStr sv)) ∧
        (List.lookup entry.PrimaryKey keys = none →
          generateIdFromKeys (some tm) table keys = none) ∧
        (∀ pv, List.lookup entry.PrimaryKey keys = some pv →
          List.lookup sk keys = none →
          generateIdFromKeys (some tm) table keys = none)) ∧
      (entry.SortKey = none →
        (∀ pv, List.lookup entry.PrimaryKey keys = some pv →
          generateIdFromKeys (some tm) table keys = some (pyStr pv)) ∧
        (List.lookup entry.PrimaryKey keys = none →
          generateIdFromKeys (some tm) table keys = none))) ∧
    (List.lookup table tm = none →
      generateIdFromKeys (some tm) table keys =
        some (joinBar (keys.map (fun kv => pyStr kv.2)))) ∧
    generateIdFromKeys none table keys =
      some (joinBar (keys.map (fun kv => pyStr kv.2))) := by
  refine ⟨fun entry he => ⟨fun sk hsk => ⟨?_, ?_, ?_⟩, fun hsk => ⟨?_, ?_⟩⟩,
    fun he => ?_, ?_⟩
  · intro pv sv hp hs
    simp [generateIdFromKeys, he, hsk, hp, hs]
  · intro hp
    simp [generateIdFromKeys, he, hsk, hp]
  · intro pv hp hs
    simp [generateIdFromKeys, he, hsk, hp, hs]
  · intro pv hp
    simp [generateIdFromKeys, he, hsk, hp]
  · intro hp
    simp [generateIdFromKeys, he, hsk, hp]
  · simp [generateIdFromKeys, he, fallbackId_eq_joinBar]
  · simp [generateIdFromKeys, fallbackId_eq_joinBar]

/-- C6, witness: with mapping `{users: {PrimaryKey: pk, SortKey: sk}}` and
keys `{pk: "A", sk: 1}` the id is `"A|1"`; without a mapping the positional
join over the same keys also gives `"A|1"`; a mapping whose primary key is
absent raises. -/
theorem generateIdFromKeys_spec_witness :
    generateIdFromKeys (some [("users", ⟨"pk", some "sk"⟩)]) "users"
      [("pk", .str "A"), ("sk", .int 1)] = some "A|1" ∧
    generateIdFromKeys none "users"
      [("pk", .str "A"), ("sk", .int 1)] = some "A|1" ∧
    generateIdFromKeys (some [("users", ⟨"missing", none⟩)]) "users"
      [("pk", .str "A"), ("sk", .int 1)] = none := by
  refine ⟨?_, ?_, ?_⟩
  · exact (((generateIdFromKeys_spec [("users", ⟨"pk", some "sk"⟩)] "users"
      [("pk", .str "A"), ("sk", .int 1)]).1 ⟨"pk", some "sk"⟩ rfl).1 "sk" rfl).1
      (.str "A") (.int 1) rfl rfl |>.trans (by rfl)
  · exact (generateIdFromKeys_spec [] "users"
      [("pk", .str "A"), ("sk", .int 1)]).2.2.trans (by rfl)
  · exact ((generateIdFromKeys_spec [("users", ⟨"missing", none⟩)] "users"
      [("pk", .str "A"), ("sk", .int 1)]).1 ⟨"missing", none⟩ rfl).2 rfl |>.2 rfl

/-- C1, counterexample: one INSERT event, both backends configured.  When
every Elasticsearch call raises, the per-event handler catches the exception
and the trace holds no OpenSearch call at all — even though with a healthy
Elasticsearch the very same event produces one write per backend.  A failure
against the first backend therefore does prevent the operation against the
other. -/
theorem es_failure_blocks_os_cex :
    processRecord envEsFails cfgBoth none recInsertUsers =
      ([⟨.ES, .indicesExists "users"⟩], false) ∧
    processRecord envNoFail cfgBoth none recInsertUsers =
      ([⟨.ES, .indicesExists "users"⟩,
        ⟨.ES, .indexWrite "users" "42" [("id", .str "42")]⟩,
        ⟨.OS, .indexWrite "users" "42" [("id", .str "42")]⟩], true) :=
  ⟨rfl, rfl⟩

/-- C1, amended: the fan-out is not failure-isolated per backend.  The
Elasticsearch client is attempted first; if its operation raises, the shared
per-event exception handler fires and the OpenSearch client is never
attempted for that event (every issued call is an Elasticsearch call).  Only
when the Elasticsearch side completes does the OpenSearch side run, in which
case the trace is the concatenation of both backends' calls (so a failure on
the second-attempted backend cannot affect the first's already-issued
calls). -/
theorem es_failure_skips_os (env : BackendEnv) (cfg : Config)
    (tm : Option TableMapping) (r : StreamRecord)
    (hes : cfg.es = true) (hos : cfg.os = true) :
    ((backendOp env .ES tm r).2 = false →
      (processRecord env cfg tm r).1 = (backendOp env .ES tm r).1 ∧
      (processRecord env cfg tm r).2 = false ∧
      ∀ c ∈ (processRecord env cfg tm r).1, c.backend = Backend.ES) ∧
    ((backendOp env .ES tm r).2 = true →
      (processRecord env cfg tm r).1 =
        (backendOp env .ES tm r).1 ++ (backendOp env .OS tm r).1) := by
  constructor
  · intro hfail
    have h1 : (processRecord env cfg tm r).1 = (backendOp env .ES tm r).1 := by
      simp [processRecord, andThen, hes, hos, hfail]
    refine ⟨h1, ?_, ?_⟩
    · simp [processRecord, andThen, hes, hos, hfail]
    · intro c hc
      rw [h1] at hc
      exact backendOp_backend env .ES tm r c hc
  · intro hok
    simp [processRecord, andThen, hes, hos, hok]

/-- C1, witness: the amended statement evaluated on the concrete failing
environment of the counterexample. -/
theorem es_failure_skips_os_witness :
    (processRecord envEsFails cfgBoth none recInsertUsers).1 =
      (backendOp envEsFails .ES none recInsertUsers).1 ∧
    (processRecord envEsFails cfgBoth none recInsertUsers).2 = false := by
  have h := (es_failure_skips_os envEsFails cfgBoth none recInsertUsers
    rfl rfl).1 rfl
  exact ⟨h.1, h.2.1⟩

/-- C3, counterexample: a MODIFY (Updated) upsert against the Elasticsearch
client in an environment where the index does not exist issues the index
write directly — no existence check, no creation — contradicting the claim
that every upsert is preceded by check-then-create and that no write goes to
a missing index. -/
theorem modify_skips_index_check_cex :
    modify_document envNoIndex .ES none recModifyUsers =
      ([⟨.ES, .indexWrite "users" "42" [("id", .str "42")]⟩], true) ∧
    envNoIndex.indexExistsResult .ES "users" = false :=
  ⟨rfl, rfl⟩

/-- C3, amended: only the Created (INSERT) path against the Elasticsearch
client performs check-then-create: its first issued call is always the
existence check, and when that check reports the index missing the creation
call is issued immediately after it, before any write.  The Updated (MODIFY)
path issues its upsert write with no administrative index call at all, for
either client. -/
theorem insert_checks_modify_does_not (env : BackendEnv)
    (tm : Option TableMapping) (r : StreamRecord) :
    (∀ b, ∀ c ∈ (modify_document env b tm r).1, isAdminOp c.op = false) ∧
    (∀ c cs, (insert_document env .ES tm r).1 = c :: cs →
      ∃ t, c = ⟨.ES, .indicesExists t⟩) ∧
    (∀ t, getTable r.eventSourceARN = some t →
      env.fails .ES (.indicesExists t) = false →
      env.indexExistsResult .ES t = false →
      (insert_document env .ES tm r).1 ≠ [] →
      ∃ rest, (insert_document env .ES tm r).1 =
        ⟨.ES, .indicesExists t⟩ :: ⟨.ES, .indicesCreate t⟩ :: rest) := by
  refine ⟨fun b c hc => modify_document_no_admin env b tm r c hc, ?_, ?_⟩
  · intro c cs h
    simp only [insert_document] at h
    repeat' split at h
    all_goals simp_all
    all_goals exact ⟨_, h.1.symm⟩
  · intro t ht hf hm hne
    simp only [insert_document, ht] at hne ⊢
    repeat' split at hne
    all_goals simp_all [hf, hm]

/-- C5: the per-record `try/except` isolates failures — a record whose
processing raises contributes its partial trace and exactly one logged
failure, and the records before and after it are processed exactly as they
would be on their own: the batch never aborts early. -/
theorem record_failure_isolated (env : BackendEnv) (cfg : Config)
    (tm : Option TableMapping) (rs1 : List StreamRecord) (r : StreamRecord)
    (rs2 : List StreamRecord) (h : (processRecord env cfg tm r).2 = false) :
    lambda_handler env cfg tm (rs1 ++ r :: rs2) =
      ((lambda_handler env cfg tm rs1).1 ++ (processRecord env cfg tm r).1
        ++ (lambda_handler env cfg tm rs2).1,
       (lambda_handler env cfg tm rs1).2 + 1 + (lambda_handler env cfg tm rs2).2) := by
  have h1 : lambda_handler env cfg tm [r] = ((processRecord env cfg tm r).1, 1) := by
    simp [lambda_handler, h]
  rw [show rs1 ++ r :: rs2 = rs1 ++ [r] ++ rs2 by simp,
      lambda_handler_append env cfg tm (rs1 ++ [r]) rs2,
      lambda_handler_append env cfg tm rs1 [r], h1]

/-- C5, witness: a 3-record batch whose middle record fails decoding (its
Number payload parses neither as integer nor float): records 1 and 3 are
still dispatched in full and exactly one failure is counted. -/
theorem record_failure_isolated_witness :
    lambda_handler envNoFail cfgBoth none
      [recInsertUsers, recBadNumber, recRemoveUsers] =
      ([⟨.ES, .indicesExists "users"⟩,
        ⟨.ES, .indexWrite "users" "42" [("id", .str "42")]⟩,
        ⟨.OS, .indexWrite "users" "42" [("id", .str "42")]⟩,
        ⟨.ES, .deleteDoc "users" "42"⟩,
        ⟨.OS, .deleteDoc "users" "42"⟩], 1) :=
  (record_failure_isolated envNoFail cfgBoth none
    [recInsertUsers] recBadNumber [recRemoveUsers] rfl).trans (by rfl)

/-- C10: a record whose eventName is none of INSERT, REMOVE, MODIFY falls
through the `elif` chain: no backend call is issued, no error is raised, and
removing the record from a batch leaves the handler's behaviour on every
other record unchanged. -/
theorem unknown_event_noop (env : BackendEnv) (cfg : Config)
    (tm : Option TableMapping) (r : StreamRecord)
    (h1 : r.eventName ≠ "INSERT") (h2 : r.eventName ≠ "REMOVE")
    (h3 : r.eventName ≠ "MODIFY") :
    processRecord env cfg tm r = ([], true) ∧
    ∀ rs1 rs2, lambda_handler env cfg tm (rs1 ++ r :: rs2) =
      lambda_handler env cfg tm (rs1 ++ rs2) := by
  have hb : ∀ b, backendOp env b tm r = ([], true) := by
    intro b
    simp [backendOp, h1, h2, h3]
  have hp : processRecord env cfg tm r = ([], true) := by
    simp [processRecord, andThen, hb]
  refine ⟨hp, fun rs1 rs2 => ?_⟩
  have hr : lambda_handler env cfg tm [r] = ([], 0) := by
    simp [lambda_handler, hp]
  rw [show rs1 ++ r :: rs2 = rs1 ++ [r] ++ rs2 by simp,
      lambda_handler_append env cfg tm (rs1 ++ [r]) rs2,
      lambda_handler_append env cfg tm rs1 [r], hr,
      lambda_handler_append env cfg tm rs1 rs2]
  simp

/-- C10, witness: an `"UPDATE"`-named record issues nothing, raises nothing,
and dropping it from a 3-record batch leaves the handler output unchanged. -/
theorem unknown_event_noop_witness :
    processRecord envNoFail cfgBoth none recUnknownEvent = ([], true) ∧
    lambda_handler envNoFail cfgBoth none
      [recInsertUsers, recUnknownEvent, recRemoveUsers] =
      lambda_handler envNoFail cfgBoth none [recInsertUsers, recRemoveUsers] := by
  have h := unknown_event_noop envNoFail cfgBoth none recUnknownEvent
    (by decide) (by decide) (by decide)
  exact ⟨h.1, h.2 [recInsertUsers] [recRemoveUsers]⟩

/-- C3, witness: the amended statement evaluated concretely — with no index
present, the INSERT path issues check-then-create before its write, and the
MODIFY path's single write is not an administrative call. -/
theorem insert_checks_modify_does_not_witness :
    (∃ rest, (insert_document envNoIndex .ES none recInsertUsers).1 =
      ⟨.ES, .indicesExists "users"⟩ :: ⟨.ES, .indicesCreate "users"⟩ :: rest) ∧
    isAdminOp (CallOp.indexWrite "users" "42" [("id", .str "42")]) = false := by
  constructor
  · exact (insert_checks_modify_does_not envNoIndex none recInsertUsers).2.2
      "users" rfl rfl rfl (fun h => List.noConfusion h)
  · exact (insert_checks_modify_does_not envNoIndex none recModifyUsers).1 .ES
      ⟨.ES, .indexWrite "users" "42" [("id", .str "42")]⟩
      (List.mem_singleton.mpr rfl)
